import Mathlib

/-!
Verification development for the Ottopress/WifiManager repository.

The embedding covers:
  * `darwin/airport.go` — the line-oriented scan parser (`AirPort.parseSingle`,
    `AirPort.parseOutput`) and its extraction regex `AirPortRE`;
  * `darwin/systemprofiler.go` — the per-interface post-processing of the
    hardware report (card-type extraction and status switch);
  * `wifi.go` — `GetAPs`, `GetBestAP`, `UpdateSecurityKey`.

Go regular expressions (package `regexp`) use leftmost-first (Perl-like)
match and submatch semantics: among matches starting at the leftmost
possible position, the one a backtracking search would find first.  The
matcher below implements exactly that search order for the constructs the
two patterns of this repository use: character classes, greedy and lazy
star/plus of a class, literals, alternation (left preferred), greedy
option, and numbered capture groups.
-/

/-- Go regexp class `\s`, which is `[\t\n\f\r ]`. -/
def goSpace (c : Char) : Bool :=
  c == ' ' || c == '\t' || c == '\n' || c == '\x0c' || c == '\r'

/-- Bounded character range test on code points. -/
def charBetween (lo hi c : Char) : Bool :=
  decide (lo ≤ c) && decide (c ≤ hi)

/-- Class `[0-9]`. -/
def digitCls (c : Char) : Bool := charBetween '0' '9' c

/-- Class `[a-zA-Z]`. -/
def alphaCls (c : Char) : Bool :=
  charBetween 'a' 'z' c || charBetween 'A' 'Z' c

/-- Class `[a-zA-Z0-9]`. -/
def alnumCls (c : Char) : Bool := alphaCls c || digitCls c

/-- Class `[a-fA-F0-9]`. -/
def hexCls (c : Char) : Bool :=
  digitCls c || charBetween 'a' 'f' c || charBetween 'A' 'F' c

/-- Class `[a-zA-Z0-9-_\s ]` of the SSID group: the two dashes are literal. -/
def ssidCls (c : Char) : Bool :=
  alphaCls c || digitCls c || c == '-' || c == '_' || goSpace c || c == ' '

/-- Class `[-|+]` (all three characters literal). -/
def signCls (c : Char) : Bool := c == '-' || c == '|' || c == '+'

/-- Class `[Y|N]` (the bar is literal). -/
def ynCls (c : Char) : Bool := c == 'Y' || c == '|' || c == 'N'

/-- Class `[A-Z-]`. -/
def upDashCls (c : Char) : Bool := charBetween 'A' 'Z' c || c == '-'

/-- Class `.`: any character except a newline. -/
def dotCls (c : Char) : Bool := c != '\n'

/-- Regular-expression shapes used by the two patterns of the repository. -/
inductive RE where
  /-- empty pattern -/
  | eps : RE
  /-- a single character of a class -/
  | cls (p : Char → Bool) : RE
  /-- concatenation -/
  | seq (a b : RE) : RE
  /-- alternation, left alternative preferred -/
  | alt (a b : RE) : RE
  /-- greedy option `(?:a)?` -/
  | opt (a : RE) : RE
  /-- greedy `[p]*` -/
  | starG (p : Char → Bool) : RE
  /-- lazy `[p]*?` -/
  | starL (p : Char → Bool) : RE
  /-- numbered capture group -/
  | grp (idx : Nat) (a : RE) : RE

/-- Captures recorded so far: group index paired with the captured text.
The most recent binding of a group shadows older ones. -/
abbrev Caps := List (Nat × List Char)

/-- Text of group `i`, or `""` when the group did not take part in the
match — exactly what Go's `FindStringSubmatch` reports for such groups. -/
def capStr (caps : Caps) (i : Nat) : String :=
  match caps.find? (fun p => p.1 == i) with
  | some p => p.2.asString
  | none => ""

/-- Greedy class star: consume as many class characters as possible, then
give back one at a time while the continuation keeps failing. -/
def starGrun (p : Char → Bool) : List Char → Caps → (List Char → Caps → Option Caps) → Option Caps
  | [], caps, k => k [] caps
  | c :: rest, caps, k =>
    if p c then
      match starGrun p rest caps k with
      | some r => some r
      | none => k (c :: rest) caps
    else k (c :: rest) caps

/-- Lazy class star: try the continuation first, consume one more class
character only on failure. -/
def starLrun (p : Char → Bool) : List Char → Caps → (List Char → Caps → Option Caps) → Option Caps
  | s, caps, k =>
    match k s caps with
    | some r => some r
    | none =>
      match s with
      | [] => none
      | c :: rest => if p c then starLrun p rest caps k else none

/-- Backtracking matcher in continuation-passing style.  The continuation
receives the rest of the input and the captures; the first success in
priority order wins, which is Go's leftmost-first submatch semantics. -/
def mrun : RE → List Char → Caps → (List Char → Caps → Option Caps) → Option Caps
  | .eps, s, caps, k => k s caps
  | .cls p, s, caps, k =>
    match s with
    | [] => none
    | c :: rest => if p c then k rest caps else none
  | .seq a b, s, caps, k => mrun a s caps (fun s2 caps2 => mrun b s2 caps2 k)
  | .alt a b, s, caps, k =>
    match mrun a s caps k with
    | some r => some r
    | none => mrun b s caps k
  | .opt a, s, caps, k =>
    match mrun a s caps k with
    | some r => some r
    | none => k s caps
  | .grp i a, s, caps, k =>
    mrun a s caps (fun s2 caps2 => k s2 ((i, s.take (s.length - s2.length)) :: caps2))
  | .starG p, s, caps, k => starGrun p s caps k
  | .starL p, s, caps, k => starLrun p s caps k

/-- Try a match at every start position, leftmost first. -/
def findFrom (re : RE) : List Char → Option Caps
  | [] =>
    match mrun re [] [] (fun _ caps => some caps) with
    | some caps => some caps
    | none => none
  | c :: rest =>
    match mrun re (c :: rest) [] (fun _ caps => some caps) with
    | some caps => some caps
    | none => findFrom re rest

/-- Model of Go's `regexp.FindStringSubmatch`: `none` when there is no
match, otherwise the captures of the leftmost-first match. -/
def FindStringSubmatch (re : RE) (s : String) : Option Caps :=
  findFrom re s.toList

/-- A single class character. -/
def chCls (ch : Char) : RE := .cls (fun c => c == ch)

/-- Literal word. -/
def litRE (s : String) : RE :=
  s.toList.foldr (fun ch r => RE.seq (chCls ch) r) RE.eps

/-- Greedy `[p]+`. -/
def plusG (p : Char → Bool) : RE := .seq (.cls p) (.starG p)

/-- Lazy `[p]+?` (used for `(.+?)` and `\s+?`). -/
def plusL (p : Char → Bool) : RE := .seq (.cls p) (.starL p)

/-- Concatenation of a list of patterns. -/
def reSeq (l : List RE) : RE := l.foldr RE.seq RE.eps

/-! ### darwin/airport.go — constants and conversion maps

The `const` block declares, via `iota`, `WPA=0`, `WEP=1`, `WPA2=2`,
`NONE=3`, `AES=4`, `TKIP=5`, `PSK=6`, `EAP=7` (iota keeps counting across
the block).  The three `map[string]int` lookups return the Go zero value
`0` for a missing key. -/

/-- WPA security protocol constant. -/
def WPA : Int := 0

/-- WEP security protocol constant. -/
def WEP : Int := 1

/-- WPA2/RSN security protocol constant. -/
def WPA2 : Int := 2

/-- Open-network security protocol constant. -/
def NONE : Int := 3

/-- AES/CCMP cipher constant. -/
def AES : Int := 4

/-- TKIP cipher constant. -/
def TKIP : Int := 5

/-- PSK authentication-method constant. -/
def PSK : Int := 6

/-- EAP/802.1x authentication-method constant. -/
def EAP : Int := 7

/-- `ProtoConv` map; a missing key yields the zero value 0. -/
def ProtoConv (s : String) : Int :=
  if s = "WPA" then WPA
  else if s = "WEP" then WEP
  else if s = "WPA2" then WPA2
  else if s = "NONE" then NONE
  else 0

/-- `CipherConv` map; a missing key yields the zero value 0. -/
def CipherConv (s : String) : Int :=
  if s = "AES" then AES
  else if s = "TKIP" then TKIP
  else 0

/-- `AuthConv` map; a missing key yields the zero value 0. -/
def AuthConv (s : String) : Int :=
  if s = "PSK" then PSK
  else if s = "802.1x" then EAP
  else 0

/-- The colon-separated hex-pair BSSID portion of `AirPortRE`:
`([a-fA-F0-9]{2}:){5}[a-fA-F0-9]{2}` written out as in the source. -/
def bssidRE : RE :=
  reSeq [.cls hexCls, .cls hexCls, chCls ':', .cls hexCls, .cls hexCls, chCls ':',
         .cls hexCls, .cls hexCls, chCls ':', .cls hexCls, .cls hexCls, chCls ':',
         .cls hexCls, .cls hexCls, chCls ':', .cls hexCls, .cls hexCls]

/-- One parenthesised security clause
`\((.+?)\/(.+?)(?:,(.+?))?\/(.+?)\)` with the four given group numbers. -/
def parenSec (gMeth gCipherA gCipherB gGroup : Nat) : RE :=
  reSeq [chCls '(',
         .grp gMeth (plusL dotCls), chCls '/',
         .grp gCipherA (plusL dotCls),
         .opt (reSeq [chCls ',', .grp gCipherB (plusL dotCls)]), chCls '/',
         .grp gGroup (plusL dotCls), chCls ')']

/-- The compiled `AirPortRE` pattern of `darwin/airport.go`:

`\s*([a-zA-Z0-9-_\s ]*)\s*(BSSID)\s*([-|+]{1}[0-9]*)\s*([0-9]*),*[-|+]*[0-9]*\s*([Y|N]{1})\s*([A-Z-]*)\s*(NONE|(?:[a-zA-Z0-9]+))(?:\((.+?)\/(.+?)(?:,(.+?))?\/(.+?)\))?\s+?(?:([a-zA-Z0-9]+)\((.+?)\/(.+?)(?:,(.+?))?\/(.+?)\))?`

with its sixteen capture groups numbered in order of the opening
parentheses. -/
def AirPortCompiledRE : RE :=
  reSeq [.starG goSpace,
         .grp 1 (.starG ssidCls),
         .starG goSpace,
         .grp 2 bssidRE,
         .starG goSpace,
         .grp 3 (.seq (.cls signCls) (.starG digitCls)),
         .starG goSpace,
         .grp 4 (.starG digitCls),
         .starG (fun c => c == ','),
         .starG signCls,
         .starG digitCls,
         .starG goSpace,
         .grp 5 (.cls ynCls),
         .starG goSpace,
         .grp 6 (.starG upDashCls),
         .starG goSpace,
         .grp 7 (.alt (litRE ("NONE")) (plusG alnumCls)),
         .opt (parenSec 8 9 10 11),
         plusL goSpace,
         .opt (.seq (.grp 12 (plusG alnumCls)) (parenSec 13 14 15 16))]

/-- `strings.Trim(s, " ")`: strip leading and trailing space characters. -/
def goTrim (s : String) : String :=
  (((s.toList.dropWhile (fun c => c == ' ')).reverse.dropWhile
      (fun c => c == ' ')).reverse).asString

/-- Value of a non-empty all-digit run, `none` otherwise. -/
def digitsVal (ds : List Char) : Option Nat :=
  match ds with
  | [] => none
  | _ =>
    if ds.all digitCls then
      some (ds.foldl (fun n c => n * 10 + (c.toNat - 48)) 0)
    else none

/-- `strconv.Atoi`: an optional sign followed by at least one digit;
anything else is a conversion error. -/
def goAtoi (s : String) : Option Int :=
  match s.toList with
  | '-' :: ds => (digitsVal ds).map (fun n => -(n : Int))
  | '+' :: ds => (digitsVal ds).map (fun n => (n : Int))
  | ds => (digitsVal ds).map (fun n => (n : Int))

/-- `AirPortNetworkSecurity` of `darwin/airport.go`. -/
structure AirPortNetworkSecurity where
  Protocol : Int
  Method : Int
  Unicasts : List Int
  Group : Int
deriving DecidableEq, Repr

/-- `AirPortNetwork` of `darwin/airport.go`. -/
structure AirPortNetwork where
  SSID : String
  BSSID : String
  RSSI : Int
  Channel : Int
  HT : Bool
  CountryCode : String
  Security : List AirPortNetworkSecurity
deriving DecidableEq, Repr

/-- The error `strconv.Atoi` reports for the recorded offending text. -/
inductive ParseErr where
  | atoi (s : String) : ParseErr
deriving DecidableEq, Repr

namespace AirPort

/-- `AirPort.parseSingle` (darwin/airport.go lines 279–327).  The slice
`matches = FindStringSubmatch(item)[1:]` is modelled by the accessor
`ms i = group (i+1)`; `len(matches)` is always 16, so the loop
`for i := 6; i < len(matches); i += 5` runs for `i = 6` and `i = 11`. -/
def parseSingle (item : String) : Except ParseErr (Option AirPortNetwork) :=
  match FindStringSubmatch AirPortCompiledRE item with
  | none => .ok none
  | some caps =>
    let ms : Nat → String := fun i => capStr caps (i + 1)
    match goAtoi (ms 2) with
    | none => .error (ParseErr.atoi (ms 2))
    | some rssiVal =>
      let htVal : Bool := ms 4 == "Y"
      match goAtoi (ms 3) with
      | none => .error (ParseErr.atoi (ms 3))
      | some channelVal =>
        let security : List AirPortNetworkSecurity :=
          if ms 6 ≠ "NONE" then
            [6, 11].foldl (fun acc i =>
              let unicasts : List Int :=
                [CipherConv (ms (i + 2))] ++
                  (if ms (i + 2) ≠ "" then [CipherConv (ms (i + 3))] else [])
              acc ++ [{ Protocol := ProtoConv (ms i)
                        Method := AuthConv (ms (i + 1))
                        Unicasts := unicasts
                        Group := CipherConv (ms (i + 4)) }]) []
          else
            [{ Protocol := ProtoConv (ms 6), Method := 0, Unicasts := [], Group := 0 }]
        .ok (some { SSID := goTrim (ms 0)
                    BSSID := goTrim (ms 1)
                    RSSI := rssiVal
                    Channel := channelVal
                    HT := htVal
                    CountryCode := goTrim (ms 5)
                    Security := security })

/-- Loop body of `AirPort.parseOutput` (darwin/airport.go lines 256–271):
scan the lines in order, skip lines without a match, stop at the first
line whose numeric fields fail to convert and return the networks
accumulated so far together with that error — exactly the Go
`return networks, networkErr`. -/
def parseOutputGo : List String → List AirPortNetwork → List AirPortNetwork × Option ParseErr
  | [], networks => (networks, none)
  | line :: rest, networks =>
    match parseSingle line with
    | .error networkErr => (networks, some networkErr)
    | .ok none => parseOutputGo rest networks
    | .ok (some network) => parseOutputGo rest (networks ++ [network])

/-- `AirPort.parseOutput` applied to the scanner's line sequence, starting
from the `var networks []AirPortNetwork` nil slice. -/
def parseOutput (output : List String) : List AirPortNetwork × Option ParseErr :=
  parseOutputGo output []

/-- The parse-handling tail of `AirPort.Scan` (darwin/airport.go lines
219–231): on a parse error it returns `nil, parseErr` and leaves
`outputCache` untouched; on success it returns the parsed networks and
stores them in the cache.  The result pairs Scan's return value with the
cache after the call. -/
def ScanParse (outputCache : List AirPortNetwork) (lines : List String) :
    (List AirPortNetwork × Option ParseErr) × List AirPortNetwork :=
  match parseOutput lines with
  | (_, some e) => (([], some e), outputCache)
  | (parseOut, none) => ((parseOut, none), parseOut)

/-- The record a line contributes on a successful parse, if any. -/
def lineRec (l : String) : Option AirPortNetwork :=
  match parseSingle l with
  | .ok (some network) => some network
  | _ => none

/-- Whether a line matches the record shape, i.e. the extraction regex. -/
def matchesLine (l : String) : Bool :=
  (FindStringSubmatch AirPortCompiledRE l).isSome

end AirPort

/-! ### wifi.go — model types and the selection/grouping operations -/

/-- `WifiNetworkSecurity` of `wifi.go`. -/
structure WifiNetworkSecurity where
  Protocol : Int
  Method : Int
  Unicasts : List Int
  Group : Int
deriving DecidableEq, Repr

/-- `WifiNetwork` of `wifi.go`. -/
structure WifiNetwork where
  SSID : String
  BSSID : String
  RSSI : Int
  HT : Bool
  Channel : Int
  Security : List WifiNetworkSecurity
  SecurityKey : String
deriving DecidableEq, Repr

/-- Outcome of a Go call that returns `(T, error)`: a value, a returned
error value, or a runtime panic (which is neither). -/
inductive GoResult (α : Type) where
  | ok (val : α) : GoResult α
  | err (msg : String) : GoResult α
  | runtimeError (msg : String) : GoResult α
deriving DecidableEq, Repr

/-- Whether a `GoResult` is a returned error value. -/
def GoResult.isErr {α : Type} : GoResult α → Bool
  | .err _ => true
  | _ => false

/-- `ErrMissingAP` of `wifi.go`. -/
def ErrMissingAP : String := "wifi: no access point found with provided name"

/-- `GetAPs` (wifi.go lines 146–157): collect the networks whose SSID
equals the argument, and pair the collected slice with `ErrMissingAP`
exactly when it is empty — Go returns `accessPoints, ErrMissingAP` in
that case, so the (empty) slice is returned alongside the error. -/
def GetAPs (ssid : String) (networks : List WifiNetwork) :
    List WifiNetwork × Option String :=
  let accessPoints := networks.foldl
    (fun accessPoints network =>
      if network.SSID == ssid then accessPoints ++ [network] else accessPoints) []
  if accessPoints.length < 1 then (accessPoints, some ErrMissingAP)
  else (accessPoints, none)

/-- `GetBestAP` (wifi.go lines 161–172).  On an empty slice the statement
`bestAP := accessPoints[0]` panics with an index-out-of-range runtime
error; otherwise the loop keeps the access point with the numerically
smallest RSSI (strict `<`, so the first minimal element is kept). -/
def GetBestAP (accessPoints : List WifiNetwork) : GoResult WifiNetwork :=
  match accessPoints with
  | [] => .runtimeError ("index out of range")
  | first :: rest =>
    if (first :: rest).length = 1 then .ok first
    else
      .ok ((first :: rest).foldl
        (fun bestAP accessPoint =>
          if accessPoint.RSSI < bestAP.RSSI then accessPoint else bestAP) first)

/-- `WifiNetwork.UpdateSecurityKey` (wifi.go lines 226–228), as the pure
record update the pointer-receiver assignment performs. -/
def UpdateSecurityKey (wifiNetwork : WifiNetwork) (key : String) : WifiNetwork :=
  { wifiNetwork with SecurityKey := key }

/-! ### darwin/systemprofiler.go — interface post-processing -/

/-- `IfaceConnected` of `darwin/systemprofiler.go` (`iota` = 0). -/
def IfaceConnected : Int := 0

/-- `IfaceDisassociated` of `darwin/systemprofiler.go` (`iota` = 1). -/
def IfaceDisassociated : Int := 1

/-- `IfaceOff` of `darwin/systemprofiler.go` (`iota` = 2). -/
def IfaceOff : Int := 2

/-- `SystemProfilerInterface` of `darwin/systemprofiler.go`.  After
plist unmarshalling the untagged `Status` field holds the Go zero value
`0`, since no plist key binds it. -/
structure SystemProfilerInterface where
  Name : String
  Vendor : String
  ID : String
  Status : Int
  SPAirDrop : String
  SPWoW : String
  SPStatus : String
  SPChannels : List Int
  SPPhyModes : String
  SPCardType : String
  SPCountryCode : String
  SPFirmware : String
  SPLocale : String
  SPMacAddr : String
deriving DecidableEq, Repr

/-- The card-attribute pattern `.*\((.+), (.+)\).*` compiled inside
`SystemProfiler.parseOutput`. -/
def cardAttrRE : RE :=
  reSeq [.starG dotCls, chCls '(', .grp 1 (plusG dotCls),
         chCls ',', chCls ' ', .grp 2 (plusG dotCls), chCls ')', .starG dotCls]

namespace SystemProfiler

/-- Card-type extraction of `SystemProfiler.parseOutput` (lines 130–134):
when the card-type string matches, overwrite `Vendor` and `ID` with the
two captures; otherwise leave them as they are. -/
def cardTypeStep (si : SystemProfilerInterface) : SystemProfilerInterface :=
  match FindStringSubmatch cardAttrRE si.SPCardType with
  | some caps => { si with Vendor := capStr caps 1, ID := capStr caps 2 }
  | none => si

/-- Status switch of `SystemProfiler.parseOutput` (lines 135–142): three
recognised strings set the status constants; any other string leaves the
field untouched. -/
def statusSwitch (si : SystemProfilerInterface) : SystemProfilerInterface :=
  if si.SPStatus = "spairport_status_connected" then { si with Status := IfaceConnected }
  else if si.SPStatus = "spairport_status_disassociated" then { si with Status := IfaceDisassociated }
  else if si.SPStatus = "spairport_status_off" then { si with Status := IfaceOff }
  else si

/-- Per-interface body of the `SystemProfiler.parseOutput` loop
(lines 128–143). -/
def parseOutputStep (si : SystemProfilerInterface) : SystemProfilerInterface :=
  statusSwitch (cardTypeStep si)

/-- The whole interface loop of `SystemProfiler.parseOutput`. -/
def parseOutput (ifaces : List SystemProfilerInterface) : List SystemProfilerInterface :=
  ifaces.map parseOutputStep

end SystemProfiler

/-! ### Concrete scan lines and their parsed records -/

/-- A record line with one security group carrying two cipher tokens. -/
def lineOne : String := "MyNet 00:11:22:33:44:55 -70 6 Y US WPA2(PSK/AES,TKIP/AES) "

/-- An open-network record line (`NONE` clause). -/
def lineTwo : String := "OtherNet aa:bb:cc:dd:ee:ff -40 11 N GB NONE "

/-- A record line with one security group carrying one cipher token. -/
def lineCipher : String := "MyNet2 00:11:22:33:44:66 -55 36 Y US WPA2(PSK/AES/AES) "

/-- A line that matches the record shape with signal-quality field `-`
(a sign with no digits), which `strconv.Atoi` rejects. -/
def badNumericLine : String := "a 00:11:22:33:44:55 - 6 Y US NONE "

/-- Network parsed from `lineOne`.  The second, zero-valued security
descriptor comes from the loop iteration `i = 11` over the unmatched
second clause, and the unicast list of the first descriptor is
`[AES, TKIP] = [4, 5]`. -/
def netOne : AirPortNetwork :=
  ⟨"MyNet", "00:11:22:33:44:55", -70, 6, true, "US",
   [⟨2, 6, [4, 5], 4⟩, ⟨0, 0, [0], 0⟩]⟩

/-- Network parsed from `lineTwo`. -/
def netTwo : AirPortNetwork :=
  ⟨"OtherNet", "aa:bb:cc:dd:ee:ff", -40, 11, false, "GB",
   [⟨3, 0, [], 0⟩]⟩

/-- Network parsed from `lineCipher`.  Its single written cipher token
`AES` produces the two-element unicast list `[4, 0]`, because the guard
in the source checks the first cipher capture instead of the second. -/
def netCipher : AirPortNetwork :=
  ⟨"MyNet2", "00:11:22:33:44:66", -55, 36, true, "US",
   [⟨2, 6, [4, 0], 4⟩, ⟨0, 0, [0], 0⟩]⟩

/-- Whether no BSSID value occurs in two distinct positions of the list. -/
def noDupBSSID : List AirPortNetwork → Bool
  | [] => true
  | r :: rest => (rest.all (fun x => x.BSSID != r.BSSID)) && noDupBSSID rest

/-! ### Sample networks for the selection claims -/

/-- Sample network with RSSI −70. -/
def netA70 : WifiNetwork := ⟨"A", "b1", -70, false, 1, [], ""⟩

/-- Sample network with RSSI −40. -/
def netA40 : WifiNetwork := ⟨"A", "b2", -40, false, 1, [], ""⟩

/-- Sample network with RSSI −55. -/
def netA55 : WifiNetwork := ⟨"A", "b3", -55, false, 1, [], ""⟩

/-- Hardware-report entry whose status string is not one of the three
recognised values, with the zero-valued `Status` the plist unmarshal
leaves behind. -/
def unknownStatusIface : SystemProfilerInterface :=
  ⟨"en1", "", "", 0, "", "", "spairport_status_scanning", [], "", "", "", "", "", ""⟩

/-- Hardware-report entry with the connected status string. -/
def connectedIface : SystemProfilerInterface :=
  ⟨"en0", "", "", 0, "", "", "spairport_status_connected", [], "", "", "", "", "", ""⟩

/-! ### Helper lemmas -/

/-- `parseSingle` answers `ok none` exactly on the lines the extraction
regex does not match; a matching line yields a record or a numeric
conversion error, never `ok none`. -/
theorem parseSingle_ok_none_iff (l : String) :
    AirPort.parseSingle l = .ok none ↔ FindStringSubmatch AirPortCompiledRE l = none := by
  unfold AirPort.parseSingle
  cases hm : FindStringSubmatch AirPortCompiledRE l with
  | none => simp
  | some caps =>
    simp only [reduceCtorEq, iff_false]
    cases h2 : goAtoi (capStr caps 3) with
    | none => simp
    | some rssiVal =>
      cases h3 : goAtoi (capStr caps 4) with
      | none => simp [h2]
      | some channelVal => simp [h2, h3]

/-- A successful scan parse returns, in input order, exactly the records
of the matching lines appended to the accumulator, and the number of
records added equals the number of matching lines. -/
theorem parseOutputGo_ok_shape :
    ∀ (lines : List String) (acc recs : List AirPortNetwork),
      AirPort.parseOutputGo lines acc = (recs, none) →
      recs = acc ++ lines.filterMap AirPort.lineRec ∧
      (lines.filterMap AirPort.lineRec).length = (lines.filter AirPort.matchesLine).length := by
  intro lines
  induction lines with
  | nil =>
    intro acc recs h
    simp only [AirPort.parseOutputGo, Prod.mk.injEq] at h
    simp [h.1.symm]
  | cons line rest ih =>
    intro acc recs h
    simp only [AirPort.parseOutputGo] at h
    cases hp : AirPort.parseSingle line with
    | error e => rw [hp] at h; simp at h
    | ok o =>
      cases o with
      | none =>
        rw [hp] at h
        have hnm : FindStringSubmatch AirPortCompiledRE line = none :=
          (parseSingle_ok_none_iff line).1 hp
        have hml : AirPort.matchesLine line = false := by
          simp [AirPort.matchesLine, hnm]
        have hlr : AirPort.lineRec line = none := by
          simp [AirPort.lineRec, hp]
        rcases ih acc recs h with ⟨h1, h2⟩
        simp [List.filterMap_cons, List.filter_cons, hlr, hml, h1, h2]
      | some network =>
        rw [hp] at h
        have hml : AirPort.matchesLine line = true := by
          cases hfm : FindStringSubmatch AirPortCompiledRE line with
          | none =>
            rw [(parseSingle_ok_none_iff line).2 hfm] at hp
            simp at hp
          | some caps => simp [AirPort.matchesLine, hfm]
        have hlr : AirPort.lineRec line = some network := by
          simp [AirPort.lineRec, hp]
        rcases ih (acc ++ [network]) recs h with ⟨h1, h2⟩
        constructor
        · simp [List.filterMap_cons, hlr, h1]
        · simp [List.filterMap_cons, List.filter_cons, hlr, hml, h2]

/-- When the lines parsed so far raise no error, appending a line whose
numeric conversion fails makes the whole parse stop there: the records of
the earlier lines are returned together with that error, whatever
follows. -/
theorem parseOutputGo_append_err :
    ∀ (pre : List String) (acc : List AirPortNetwork) (line : String)
      (post : List String) (e : ParseErr),
      (AirPort.parseOutputGo pre acc).2 = none →
      AirPort.parseSingle line = .error e →
      AirPort.parseOutputGo (pre ++ line :: post) acc =
        ((AirPort.parseOutputGo pre acc).1, some e) := by
  intro pre
  induction pre with
  | nil =>
    intro acc line post e _ hline
    simp [AirPort.parseOutputGo, hline]
  | cons p rest ih =>
    intro acc line post e hok hline
    cases hp : AirPort.parseSingle p with
    | error e2 =>
      have : AirPort.parseOutputGo (p :: rest) acc = (acc, some e2) := by
        simp [AirPort.parseOutputGo, hp]
      rw [this] at hok
      simp at hok
    | ok o =>
      cases o with
      | none =>
        have h1 : AirPort.parseOutputGo (p :: rest) acc = AirPort.parseOutputGo rest acc := by
          simp [AirPort.parseOutputGo, hp]
        have h2 : AirPort.parseOutputGo ((p :: rest) ++ line :: post) acc
            = AirPort.parseOutputGo (rest ++ line :: post) acc := by
          simp [List.cons_append, AirPort.parseOutputGo, hp]
        rw [h1] at hok
        rw [h2, h1]
        exact ih acc line post e hok hline
      | some network =>
        have h1 : AirPort.parseOutputGo (p :: rest) acc
            = AirPort.parseOutputGo rest (acc ++ [network]) := by
          simp [AirPort.parseOutputGo, hp]
        have h2 : AirPort.parseOutputGo ((p :: rest) ++ line :: post) acc
            = AirPort.parseOutputGo (rest ++ line :: post) (acc ++ [network]) := by
          simp [List.cons_append, AirPort.parseOutputGo, hp]
        rw [h1] at hok
        rw [h2, h1]
        exact ih (acc ++ [network]) line post e hok hline

/-- The accumulating loop of `GetAPs` is the subsequence filter. -/
theorem getAPs_foldl_eq_filter (ssid : String) :
    ∀ (networks : List WifiNetwork) (acc : List WifiNetwork),
      networks.foldl
        (fun accessPoints network =>
          if network.SSID == ssid then accessPoints ++ [network] else accessPoints) acc
        = acc ++ networks.filter (fun network => network.SSID == ssid) := by
  intro networks
  induction networks with
  | nil => intro acc; simp
  | cons n rest ih =>
    intro acc
    simp only [List.foldl_cons, List.filter_cons]
    cases h : (n.SSID == ssid) with
    | true =>
      rw [if_pos rfl, if_pos rfl, ih (acc ++ [n]), List.append_assoc, List.singleton_append]
    | false =>
      rw [if_neg (by decide), if_neg (by decide), ih acc]

/-! ### Claims -/

/-- C1.  Over the spec's sample input with RSSI values −70, −40, −55, the
code returns the RSSI −70 element: the comparison `accessPoint.RSSI <
bestAP.RSSI` selects the numerically smallest (weakest) signal, not the
maximum the claim and the function's own doc comment describe. -/
theorem getBestAP_selects_weakest_on_spec_sample :
    GetBestAP [netA70, netA40, netA55] = GoResult.ok netA70 ∧
    netA70.RSSI = -70 ∧ netA40.RSSI = -40 ∧ netA70 ≠ netA40 :=
  ⟨rfl, rfl, rfl, by decide⟩

/-- C2 counterexample.  On the empty sequence `GetBestAP` does not return
an error value at all: the indexing `accessPoints[0]` panics. -/
theorem getBestAP_empty_returns_no_error_value :
    GoResult.isErr (GetBestAP ([] : List WifiNetwork)) = false :=
  rfl

/-- C2 amended.  `GetBestAP` applied to an empty sequence panics with an
index-out-of-range runtime error; it returns neither a zero-valued
network nor an InvalidArgument error value. -/
theorem getBestAP_empty_is_runtime_error :
    GetBestAP ([] : List WifiNetwork) = GoResult.runtimeError ("index out of range") :=
  rfl

/-- C3 counterexample.  `badNumericLine` matches the record shape, yet
`parseOutput` on the one-line input consisting of it produces no record
for it and fails with an error, so the per-matching-line production claim
does not hold for every scan input. -/
theorem parseOutput_fails_on_matching_line_with_bad_numeric :
    AirPort.matchesLine badNumericLine = true ∧
    AirPort.parseOutput [badNumericLine] = ([], some (ParseErr.atoi ("-"))) :=
  ⟨rfl, rfl⟩

/-- C3 amended.  On every scan input for which `parseOutput` succeeds, it
returns exactly one record per line matching the record shape, in input
order, and a line that does not match the record shape contributes no
element and causes no error. -/
theorem parseOutput_success_one_record_per_matching_line
    (lines : List String) (recs : List AirPortNetwork) (other : String)
    (hok : AirPort.parseOutput lines = (recs, none))
    (hother : AirPort.matchesLine other = false) :
    recs = lines.filterMap AirPort.lineRec ∧
    recs.length = (lines.filter AirPort.matchesLine).length ∧
    AirPort.parseSingle other = Except.ok none := by
  rcases parseOutputGo_ok_shape lines [] recs hok with ⟨h1, h2⟩
  have hr : recs = lines.filterMap AirPort.lineRec := by simpa using h1
  refine ⟨hr, by rw [hr]; exact h2, ?_⟩
  apply (parseSingle_ok_none_iff other).2
  cases hfm : FindStringSubmatch AirPortCompiledRE other with
  | none => rfl
  | some caps => rw [AirPort.matchesLine, hfm] at hother; simp at hother

/-- C3 witness: a concrete input with two record lines, a blank line and
a header line, evaluated through the amended theorem. -/
theorem parseOutput_success_one_record_per_matching_line_witness :
    AirPort.parseOutput [lineOne, "", lineTwo, "SSID BSSID"] = ([netOne, netTwo], none) ∧
    AirPort.matchesLine ("SSID BSSID") = false ∧
    ([netOne, netTwo] = [lineOne, "", lineTwo, "SSID BSSID"].filterMap AirPort.lineRec ∧
     ([netOne, netTwo] : List AirPortNetwork).length
       = ([lineOne, "", lineTwo, "SSID BSSID"].filter AirPort.matchesLine).length ∧
     AirPort.parseSingle ("SSID BSSID") = Except.ok none) :=
  ⟨rfl, rfl,
   parseOutput_success_one_record_per_matching_line
     [lineOne, "", lineTwo, "SSID BSSID"] [netOne, netTwo] ("SSID BSSID") rfl rfl⟩

/-- C4.  A record whose security clause consists of a single group
(`WPA2(PSK/AES,TKIP/AES)`) parses to a security sequence of length 2:
the extraction loop also runs for the unmatched second capture block and
appends a zero-valued descriptor. -/
theorem parseSingle_one_group_yields_two_descriptors :
    AirPort.parseSingle lineOne = Except.ok (some netOne) ∧
    netOne.Security.length = 2 ∧
    netOne.Security.getLast? = some ⟨0, 0, [0], 0⟩ :=
  ⟨rfl, rfl, rfl⟩

/-- C5 counterexample.  On an input whose first line parses and whose
second matching line has the unconvertible signal field `-`, the whole
operation fails, but `parseOutput` returns the non-empty partial record
list of the first line together with the error. -/
theorem parseOutput_returns_partial_list_with_error :
    AirPort.parseOutput [lineOne, badNumericLine] = ([netOne], some (ParseErr.atoi ("-"))) ∧
    ([netOne] : List AirPortNetwork) ≠ [] :=
  ⟨rfl, by decide⟩

/-- C5 amended.  A matching line whose numeric field fails integer
conversion makes the whole parse fail with that error; `parseOutput`
itself returns the records of the preceding lines alongside the error,
and the `Scan` caller discards them — it returns the empty (nil) result
and leaves its cache unchanged, so no partial result is caller-visible. -/
theorem parseOutput_error_propagation_and_scan_discard
    (cache : List AirPortNetwork) (pre post : List String) (line : String) (e : ParseErr)
    (hok : (AirPort.parseOutput pre).2 = none)
    (hline : AirPort.parseSingle line = Except.error e) :
    AirPort.parseOutput (pre ++ line :: post) = ((AirPort.parseOutput pre).1, some e) ∧
    AirPort.ScanParse cache (pre ++ line :: post) = (([], some e), cache) := by
  have h1 : AirPort.parseOutput (pre ++ line :: post) = ((AirPort.parseOutput pre).1, some e) :=
    parseOutputGo_append_err pre [] line post e hok hline
  refine ⟨h1, ?_⟩
  unfold AirPort.ScanParse
  rw [h1]

/-- C5 witness: one good record line, then the bad-numeric line, then a
further line, with a non-empty previous cache. -/
theorem parseOutput_error_propagation_and_scan_discard_witness :
    (AirPort.parseOutput [lineOne]).2 = none ∧
    AirPort.parseSingle badNumericLine = Except.error (ParseErr.atoi ("-")) ∧
    (AirPort.parseOutput ([lineOne] ++ badNumericLine :: [lineTwo])
        = ((AirPort.parseOutput [lineOne]).1, some (ParseErr.atoi ("-"))) ∧
     AirPort.ScanParse [netTwo] ([lineOne] ++ badNumericLine :: [lineTwo])
        = (([], some (ParseErr.atoi ("-"))), [netTwo])) :=
  ⟨rfl, rfl,
   parseOutput_error_propagation_and_scan_discard
     [netTwo] [lineOne] [lineTwo] badNumericLine (ParseErr.atoi ("-")) rfl rfl⟩

/-- C6 counterexample.  An interface entry whose status string is not one
of the three recognised values keeps the zero-valued status field, and
that zero value is `IfaceConnected`, not `IfaceOff`: the unrecognised
status is reported as Connected. -/
theorem parseOutputStep_unknown_status_is_connected :
    (SystemProfiler.parseOutputStep unknownStatusIface).Status = IfaceConnected ∧
    IfaceConnected ≠ IfaceOff :=
  ⟨rfl, by decide⟩

/-- C6 amended.  The status switch maps the three recognised strings to
`IfaceConnected`, `IfaceDisassociated` and `IfaceOff`, and leaves any
other status string at the field's previous (zero) value — but the zero
value equals `IfaceConnected` (0), not `IfaceOff` (2), so an unrecognised
status on a zero-initialised entry reads as Connected. -/
theorem parseOutputStep_status_mapping :
    ∀ si : SystemProfilerInterface,
      (SystemProfiler.parseOutputStep si).Status =
        (if si.SPStatus = "spairport_status_connected" then IfaceConnected
         else if si.SPStatus = "spairport_status_disassociated" then IfaceDisassociated
         else if si.SPStatus = "spairport_status_off" then IfaceOff
         else si.Status) ∧
      IfaceConnected = 0 ∧ IfaceOff ≠ IfaceConnected := by
  intro si
  refine ⟨?_, rfl, by decide⟩
  have hS : (SystemProfiler.cardTypeStep si).SPStatus = si.SPStatus := by
    unfold SystemProfiler.cardTypeStep
    cases FindStringSubmatch cardAttrRE si.SPCardType <;> rfl
  have hT : (SystemProfiler.cardTypeStep si).Status = si.Status := by
    unfold SystemProfiler.cardTypeStep
    cases FindStringSubmatch cardAttrRE si.SPCardType <;> rfl
  show (SystemProfiler.statusSwitch (SystemProfiler.cardTypeStep si)).Status = _
  unfold SystemProfiler.statusSwitch
  rw [hS]
  split_ifs <;> simp [hT]

/-- C7.  A security group written with a single cipher token
(`WPA2(PSK/AES/AES)`) yields a two-entry unicast list `[4, 0]`: the
append guard tests the first cipher capture (never empty for a matched
group) instead of the optional second one, so a spurious zero entry is
added. -/
theorem parseSingle_one_cipher_yields_two_unicasts :
    AirPort.parseSingle lineCipher = Except.ok (some netCipher) ∧
    netCipher.Security.map (fun d => d.Unicasts) = [[4, 0], [0]] :=
  ⟨rfl, rfl⟩

/-- C8.  `GetAPs` returns exactly the order-preserving subsequence of the
networks whose SSID equals the argument, and pairs it with the
`ErrMissingAP` error precisely when that subsequence is empty. -/
theorem getAPs_exact_ssid_filter :
    ∀ (ssid : String) (networks : List WifiNetwork),
      GetAPs ssid networks =
        (networks.filter (fun network => network.SSID == ssid),
         if networks.filter (fun network => network.SSID == ssid) = []
         then some ErrMissingAP else none) := by
  intro ssid networks
  simp only [GetAPs]
  rw [getAPs_foldl_eq_filter ssid networks [], List.nil_append]
  cases hf : networks.filter (fun network => network.SSID == ssid) with
  | nil => simp
  | cons a l => simp

/-- C9 counterexample.  Two identical matching lines parse successfully
into a batch containing the same BSSID twice: `parseOutput` performs no
BSSID deduplication. -/
theorem parseOutput_duplicate_bssid_batch :
    AirPort.parseOutput [lineOne, lineOne] = ([netOne, netOne], none) ∧
    noDupBSSID [netOne, netOne] = false :=
  ⟨rfl, rfl⟩

/-- C9 amended.  A successfully parsed batch carries pairwise-distinct
BSSIDs exactly when the records extracted from its matching lines do;
since no deduplication happens, distinctness of the input lines' BSSIDs
is required. -/
theorem parseOutput_distinct_bssid_when_lines_distinct
    (lines : List String) (recs : List AirPortNetwork)
    (hok : AirPort.parseOutput lines = (recs, none))
    (hnd : noDupBSSID (lines.filterMap AirPort.lineRec) = true) :
    noDupBSSID recs = true := by
  rcases parseOutputGo_ok_shape lines [] recs hok with ⟨h1, _⟩
  rw [show recs = lines.filterMap AirPort.lineRec from by simpa using h1]
  exact hnd

/-- C9 witness: two record lines with distinct BSSIDs. -/
theorem parseOutput_distinct_bssid_when_lines_distinct_witness :
    AirPort.parseOutput [lineOne, lineTwo] = ([netOne, netTwo], none) ∧
    noDupBSSID ([lineOne, lineTwo].filterMap AirPort.lineRec) = true ∧
    noDupBSSID [netOne, netTwo] = true :=
  ⟨rfl, rfl,
   parseOutput_distinct_bssid_when_lines_distinct [lineOne, lineTwo] [netOne, netTwo] rfl rfl⟩

/-- C10.  `UpdateSecurityKey` sets the security key to the given value
and leaves every other field of the network unchanged. -/
theorem updateSecurityKey_frame :
    ∀ (wifiNetwork : WifiNetwork) (key : String),
      (UpdateSecurityKey wifiNetwork key).SecurityKey = key ∧
      (UpdateSecurityKey wifiNetwork key).SSID = wifiNetwork.SSID ∧
      (UpdateSecurityKey wifiNetwork key).BSSID = wifiNetwork.BSSID ∧
      (UpdateSecurityKey wifiNetwork key).RSSI = wifiNetwork.RSSI ∧
      (UpdateSecurityKey wifiNetwork key).HT = wifiNetwork.HT ∧
      (UpdateSecurityKey wifiNetwork key).Channel = wifiNetwork.Channel ∧
      (UpdateSecurityKey wifiNetwork key).Security = wifiNetwork.Security :=
  fun _ _ => ⟨rfl, rfl, rfl, rfl, rfl, rfl, rfl⟩
